import Mathlib

/-!
Verification of the myvoicepost AI-orchestration pipeline and storage layer.

The TypeScript source is shallowly embedded below.  External-library behavior
that the source relies on is embedded from the libraries' documented semantics:
`pRetry` (the p-retry / retry npm packages) is modelled by `pRetryGo`, and
`JSON.parse` of a model response is abstracted to a `ParseOutcome` value (either
a parse failure carrying the thrown message, or an object with the two optional
string fields the code reads).  Error objects are identified with their
`message` strings, which is exactly what `isRateLimitError` and the retry
machinery inspect.
-/

namespace MyVoicePost

/-- Predicate `leadsWith sub l` is true iff `sub` is an initial segment of `l`. -/
def leadsWith : List Char → List Char → Bool
  | [], _ => true
  | _ :: _, [] => false
  | a :: as, b :: bs => (a = b) && leadsWith as bs

/-- Predicate `hasSub sub l` is true iff `sub` occurs contiguously inside `l`
(the `String.prototype.includes` test used by the source). -/
def hasSub (sub : List Char) : List Char → Bool
  | [] => leadsWith sub []
  | b :: rest => leadsWith sub (b :: rest) || hasSub sub rest

/-- Embeds `isRateLimitError` from `src/server/gemini.ts` (lines 94-102):
the error message contains "429", "RATELIMIT_EXCEEDED", or (case-insensitively)
"quota" or "rate limit". -/
def isRateLimitError (msg : String) : Bool :=
  hasSub "429".toList msg.toList ||
  hasSub "RATELIMIT_EXCEEDED".toList msg.toList ||
  hasSub "quota".toList (msg.toList.map Char.toLower) ||
  hasSub "rate limit".toList (msg.toList.map Char.toLower)

/-- Options passed to `pRetry` by every wrapped call in the source:
`{ retries: 5, minTimeout: 2000, maxTimeout: 30000, factor: 2 }`. -/
structure RetryOptions where
  retries : Nat
  minTimeout : Nat
  maxTimeout : Nat
  factor : Nat
  deriving Repr, DecidableEq

/-- Embeds `createTimeout(i, opts)` of the retry package (with `randomize: false`,
the default): `min(minTimeout * factor^i, maxTimeout)`, `i` counting retries
from 0. -/
def retryTimeout (opts : RetryOptions) (i : Nat) : Nat :=
  min (opts.minTimeout * opts.factor ^ i) opts.maxTimeout

/-- The retry package precomputes one timeout per allowed retry:
`[createTimeout(0), ..., createTimeout(retries - 1)]`. -/
def retryTimeouts (opts : RetryOptions) : List Nat :=
  (List.range opts.retries).map (retryTimeout opts)

/-- Embeds `RetryOperation.mainError()` of the retry package: the error whose message
occurred most often among all recorded failures, later occurrences winning
ties (the recorded comparison is `count >= mainErrorCount`).  Errors are
identified with their messages. -/
def mainErrorGo : List String → List String → Option String → Nat → Option String
  | [], _, main, _ => main
  | e :: rest, seen, main, mainCount =>
    let c := (e :: seen).count e
    if mainCount ≤ c then mainErrorGo rest (e :: seen) (some e) c
    else mainErrorGo rest (e :: seen) main mainCount

/-- The error `pRetry` rejects with once the retry budget is exhausted. -/
def mainError (errors : List String) : Option String :=
  mainErrorGo errors [] none 0

/-- Result of one attempt of a wrapped unit of work, as seen by `pRetry`
after the source's catch-block classification: a success value, an error
rethrown as retriable, or an error wrapped in `AbortError`. -/
inductive Wrapped (α : Type) where
  | ok (v : α)
  | retriable (msg : String)
  | abort (msg : String)
  deriving Repr, DecidableEq

/-- Observable outcome of a whole `pRetry` run: the resolved value, the
original error unwrapped from an `AbortError` (immediate, non-retryable
propagation), or the main error after the retry budget is exhausted. -/
inductive RunOutcome (α : Type) where
  | success (v : α)
  | aborted (msg : String)
  | exhausted (msg : String)
  deriving Repr, DecidableEq

/-- A full run trace: the outcome, the backoff delays actually waited
(one per retry performed), and the number of attempts executed. -/
structure RunTrace (α : Type) where
  outcome : RunOutcome α
  delays : List Nat
  attempts : Nat
  deriving Repr, DecidableEq

/-- The `pRetry` loop (p-retry on top of the retry package): run the attempt;
resolve on success; on `AbortError` reject immediately with the original
error; on a retriable error consume the next precomputed timeout and retry,
or, with no timeouts left, reject with `mainError` over every recorded
failure.  `op` gives the wrapped thunk's result for each 1-based attempt
number; `errs` accumulates the messages of the failures recorded so far. -/
def pRetryGo (op : Nat → Wrapped α) (attempt : Nat) (timeouts : List Nat)
    (errs : List String) : RunTrace α :=
  match op attempt with
  | .ok v => ⟨.success v, [], attempt⟩
  | .abort m => ⟨.aborted m, [], attempt⟩
  | .retriable m =>
    match timeouts with
    | [] => ⟨.exhausted ((mainError (errs ++ [m])).getD m), [], attempt⟩
    | t :: rest =>
      let r := pRetryGo op (attempt + 1) rest (errs ++ [m])
      ⟨r.outcome, t :: r.delays, r.attempts⟩

/-- Embeds `pRetry(op, opts)`. -/
def pRetryRun (opts : RetryOptions) (op : Nat → Wrapped α) : RunTrace α :=
  pRetryGo op 1 (retryTimeouts opts) []

/-- The options every Gemini call in the source passes to `pRetry`. -/
def geminiRetryOptions : RetryOptions :=
  { retries := 5, minTimeout := 2000, maxTimeout := 30000, factor := 2 }

/-- Raw result of one underlying external call: either a returned value or a
thrown error, identified by its message. -/
inductive AttemptResult (α : Type) where
  | ok (v : α)
  | err (msg : String)
  deriving Repr, DecidableEq

/-- The catch-block shared by every wrapped Gemini call (`gemini.ts` lines
140-146 and analogues): rethrow a rate-limit/quota error to trigger a retry,
wrap anything else in `AbortError`. -/
def classifyAttempt (r : AttemptResult α) : Wrapped α :=
  match r with
  | .ok v => .ok v
  | .err m => if isRateLimitError m then .retriable m else .abort m

/-- The retry wrapper every Gemini call in the source is built from:
classify each attempt's raw result with the shared catch-block and run the
whole thunk under `pRetry` with `geminiRetryOptions`. -/
def retryWrapped (api : Nat → AttemptResult α) : RunTrace α :=
  pRetryRun geminiRetryOptions fun n => classifyAttempt (api n)

/-- Embeds `transcribeAudio` (`gemini.ts` lines 115-155): each successful API call
yields `response.text` (possibly absent, modelled as `Option String`), and the
function returns `response.text || ""`; errors are classified and the whole
thunk is run under `pRetry` with `geminiRetryOptions`. -/
def transcribeAudio (api : Nat → AttemptResult (Option String)) : RunTrace String :=
  retryWrapped fun n =>
    match api n with
    | .ok t => .ok (t.getD "")
    | .err m => .err m

/-- The two optional string fields the transform code reads off a parsed
model response. -/
structure ParsedObj where
  translatedText : Option String
  polishedText : Option String
  deriving Repr, DecidableEq

/-- Abstraction of `JSON.parse` applied to a model-response body: it either
throws (carrying the parse-error message) or yields an object whose
`translatedText`/`polishedText` fields may each be present or absent. -/
inductive ParseOutcome where
  | failed (emsg : String)
  | obj (o : ParsedObj)
  deriving Repr, DecidableEq

/-- Embeds `safeJsonParse(text, fallback)` (`gemini.ts` lines 104-112): the parsed
value, or `fallback` when `JSON.parse` throws. -/
def safeJsonParse (r : ParseOutcome) (fallback : ParsedObj) : ParsedObj :=
  match r with
  | .failed _ => fallback
  | .obj o => o

/-- JavaScript `v || d` on an optional string: `d` when the field is absent
or the empty string (both falsy), the field's value otherwise. -/
def jsOrStr (v : Option String) (d : String) : String :=
  match v with
  | some s => if s = "" then d else s
  | none => d

/-- Embeds `response.text || "{}"` followed by parsing: an absent/falsy body is
replaced by `"{}"`, which parses to an object with no fields. -/
def respParse (raw : Option ParseOutcome) : ParseOutcome :=
  raw.getD (.obj ⟨none, none⟩)

/-- The pair returned by `translateAndPolish`. -/
structure TransPair where
  translatedText : String
  polishedText : String
  deriving Repr, DecidableEq

/-- One attempt of `translateAndPolish` (`gemini.ts` lines 168-240): the raw
API call either throws or returns a body; same-language requests only polish
(`safeJsonParse(response.text || "{}", { polishedText: text })`, then
`{ translatedText: text, polishedText: result.polishedText || text }`);
cross-language requests use fallback `{ translatedText: text, polishedText:
text }` and return `{ translatedText: result.translatedText || text,
polishedText: result.polishedText || result.translatedText || text }`. -/
def translateAndPolishAttempt (text sourceLanguage targetLanguage : String)
    (api : Nat → AttemptResult (Option ParseOutcome)) (n : Nat) :
    AttemptResult TransPair :=
  match api n with
  | .err m => .err m
  | .ok raw =>
    if sourceLanguage = targetLanguage then
      let result := safeJsonParse (respParse raw) ⟨none, some text⟩
      .ok ⟨text, jsOrStr result.polishedText text⟩
    else
      let result := safeJsonParse (respParse raw) ⟨some text, some text⟩
      .ok ⟨jsOrStr result.translatedText text,
        jsOrStr result.polishedText (jsOrStr result.translatedText text)⟩

/-- Embeds `translateAndPolish` (`gemini.ts` lines 158-249): the attempt above under
`pRetry` with `geminiRetryOptions`. -/
def translateAndPolish (text sourceLanguage targetLanguage : String)
    (api : Nat → AttemptResult (Option ParseOutcome)) : RunTrace TransPair :=
  retryWrapped (translateAndPolishAttempt text sourceLanguage targetLanguage api)

/-- One attempt of the canonical `polishText` (`gemini.ts` lines 252-312):
`safeJsonParse(response.text || "{}", { polishedText: text })`, then
`result.polishedText || text`. -/
def polishTextAttempt (text : String)
    (api : Nat → AttemptResult (Option ParseOutcome)) (n : Nat) :
    AttemptResult String :=
  match api n with
  | .err m => .err m
  | .ok raw =>
    let result := safeJsonParse (respParse raw) ⟨none, some text⟩
    .ok (jsOrStr result.polishedText text)

/-- Canonical `polishText` under `pRetry`. -/
def polishText (text : String)
    (api : Nat → AttemptResult (Option ParseOutcome)) : RunTrace String :=
  retryWrapped (polishTextAttempt text api)

/-- One attempt of the divergent `polishText` copy (`storage.ts` lines
342-398): it calls plain `JSON.parse(response.text || "{}")` with no
try/catch of its own, so a malformed body throws inside the wrapped thunk
and reaches the classification catch-block as an ordinary error. -/
def polishTextDivergentAttempt (text : String)
    (api : Nat → AttemptResult (Option ParseOutcome)) (n : Nat) :
    AttemptResult String :=
  match api n with
  | .err m => .err m
  | .ok raw =>
    match respParse raw with
    | .failed emsg => .err emsg
    | .obj o => .ok (jsOrStr o.polishedText text)

/-- The divergent `polishText` copy under `pRetry`. -/
def polishTextDivergent (text : String)
    (api : Nat → AttemptResult (Option ParseOutcome)) : RunTrace String :=
  retryWrapped (polishTextDivergentAttempt text api)

/-! ## Storage layer (`src/server/storage.ts`, `src/shared/schema.ts`,
`src/unnamed/part_005`). Timestamps are modelled as naturals
(`Date.getTime()` milliseconds); JavaScript `Map`s keyed by the row id are
modelled as lists in insertion order, the key of each entry being its `id`
field. -/

/-- A `User` row (`shared/schema.ts` `mvp_users`). -/
structure User where
  id : String
  username : String
  email : Option String
  passwordHash : String
  createdAt : Nat
  updatedAt : Nat
  deriving Repr, DecidableEq

/-- Embeds `CreateUserInput` (`storage.ts` lines 5-9). -/
structure CreateUserInput where
  username : String
  password : String
  email : Option String
  deriving Repr, DecidableEq

/-- A `TranslationResult` row (`shared/schema.ts`). -/
structure Translation where
  id : String
  originalText : String
  translatedText : String
  polishedText : String
  sourceLanguage : String
  targetLanguage : String
  outputFormat : String
  createdAt : Nat
  deriving Repr, DecidableEq

/-- Embeds `InsertTranslation` (`shared/schema.ts`). -/
structure InsertTranslation where
  originalText : String
  translatedText : String
  polishedText : String
  sourceLanguage : String
  targetLanguage : String
  outputFormat : String
  deriving Repr, DecidableEq

/-- A `SavedText` row (`shared/schema.ts` `mvp_saved_texts`). -/
structure SavedText where
  id : String
  userId : String
  type : String
  originalText : String
  polishedText : String
  translatedText : Option String
  sourceLanguage : String
  targetLanguage : Option String
  outputFormat : String
  outputType : Option String
  createdAt : Nat
  deriving Repr, DecidableEq

/-- JavaScript `v || null` on an optional string field: empty strings are
falsy and become `null`. -/
def jsOrNull (v : Option String) : Option String :=
  match v with
  | some s => if s = "" then none else some s
  | none => none

/-- Embeds `MemStorage.createUser` (`storage.ts` lines 51-64): hash the password
with bcrypt (`hash` abstracts `bcrypt.hash(·, 10)`), build the row, store
it under its fresh id, return it.  It performs no duplicate check of any
kind.  `id`/`now` supply `randomUUID()` and `new Date()`. -/
def createUser (hash : String → String) (users : List User)
    (input : CreateUserInput) (id : String) (now : Nat) : User × List User :=
  let user : User :=
    { id := id
      username := input.username
      email := jsOrNull input.email
      passwordHash := hash input.password
      createdAt := now
      updatedAt := now }
  (user, users ++ [user])

/-- Embeds `MemStorage.getUserByUsername` (`storage.ts` lines 45-49). -/
def getUserByUsername (users : List User) (username : String) : Option User :=
  users.find? (fun u => u.username = username)

/-- Embeds `SupabaseStorage.getUserByEmail` (`part_005` lines 26-30): `undefined`
for a falsy email, otherwise the first row with that email. -/
def getUserByEmail (users : List User) (email : String) : Option User :=
  if email = "" then none
  else users.find? (fun u => u.email = some email)

/-- The legacy `User` shape of `src/unnamed/part_000` (`users` table:
`id`, `username`, `password`). -/
structure UserLegacy where
  id : String
  username : String
  password : String
  deriving Repr, DecidableEq

/-- The divergent `MemStorage.createUser` copy (`src/unnamed/part_003`
lines 34-39): `{ ...insertUser, id }` — the submitted password is stored
verbatim, no hashing. -/
def createUserLegacy (users : List UserLegacy) (username password id : String) :
    UserLegacy × List UserLegacy :=
  let user : UserLegacy := { id := id, username := username, password := password }
  (user, users ++ [user])

/-- Embeds `MemStorage.createTranslation` (`storage.ts` lines 70-79). -/
def createTranslation (translations : List Translation)
    (ins : InsertTranslation) (id : String) (now : Nat) :
    Translation × List Translation :=
  let t : Translation :=
    { id := id
      originalText := ins.originalText
      translatedText := ins.translatedText
      polishedText := ins.polishedText
      sourceLanguage := ins.sourceLanguage
      targetLanguage := ins.targetLanguage
      outputFormat := ins.outputFormat
      createdAt := now }
  (t, translations ++ [t])

/-- Embeds `MemStorage.getTranslation` (`storage.ts` lines 81-83). -/
def getTranslation (translations : List Translation) (id : String) :
    Option Translation :=
  translations.find? (fun t => t.id = id)

/-- Embeds `InsertSavedText` (`shared/schema.ts`). -/
structure InsertSavedText where
  userId : String
  type : String
  originalText : String
  polishedText : String
  translatedText : Option String
  sourceLanguage : String
  targetLanguage : Option String
  outputFormat : String
  outputType : Option String
  deriving Repr, DecidableEq

/-- Embeds `MemStorage.createSavedText` (`storage.ts` lines 92-109). -/
def createSavedText (texts : List SavedText) (ins : InsertSavedText)
    (id : String) (now : Nat) : SavedText × List SavedText :=
  let saved : SavedText :=
    { id := id
      userId := ins.userId
      type := ins.type
      originalText := ins.originalText
      polishedText := ins.polishedText
      translatedText := ins.translatedText
      sourceLanguage := ins.sourceLanguage
      targetLanguage := ins.targetLanguage
      outputFormat := ins.outputFormat
      outputType := ins.outputType
      createdAt := now }
  (saved, texts ++ [saved])

/-- Descending `createdAt` order on saved texts (the comparator
`(b.createdAt?.getTime() || 0) - (a.createdAt?.getTime() || 0)`). -/
def savedDesc (a b : SavedText) : Prop := b.createdAt ≤ a.createdAt

instance : DecidableRel savedDesc := fun _ _ => Nat.decLe _ _

instance : IsTotal SavedText savedDesc := ⟨fun a b => Nat.le_total b.createdAt a.createdAt⟩

instance : IsTrans SavedText savedDesc := ⟨fun _ _ _ h1 h2 => Nat.le_trans h2 h1⟩

/-- The row filter of `MemStorage.getSavedTextsByUser` (`storage.ts` line
113): `t.userId === userId && (!type || t.type === type)` — a falsy
(`undefined` or empty) type filter matches everything. -/
def savedMatches (userId : String) (type : Option String) (t : SavedText) : Bool :=
  t.userId = userId &&
    (match type with
     | none => true
     | some ty => if ty = "" then true else t.type = ty)

/-- Embeds `MemStorage.getSavedTextsByUser` (`storage.ts` lines 111-116): filter by
owner and optional type, then sort by `createdAt` descending.  JavaScript's
stable `Array.prototype.sort` is modelled by the stable `insertionSort`. -/
def getSavedTextsByUser (texts : List SavedText) (userId : String)
    (type : Option String) : List SavedText :=
  (texts.filter (savedMatches userId type)).insertionSort savedDesc

/-- Embeds `SupabaseStorage.getSavedTextsByUser` (`part_005` lines 73-82): the
`SELECT ... WHERE user_id = $1 [AND type = $2] ORDER BY created_at DESC`
query — rows of the table matching the owner (and the type when the filter
is truthy), in descending `createdAt` order. -/
def supabaseGetSavedTextsByUser (texts : List SavedText) (userId : String)
    (type : Option String) : List SavedText :=
  (texts.filter (savedMatches userId type)).insertionSort savedDesc

/-- Embeds `MemStorage.getSavedText` (`storage.ts` lines 118-120):
`this.savedTexts.get(id)` — a lookup by id only, with no caller identity in
sight. -/
def getSavedText (texts : List SavedText) (id : String) : Option SavedText :=
  texts.find? (fun t => t.id = id)

/-- Embeds `MemStorage.deleteSavedText` (`storage.ts` lines 122-129): fetch the
row; delete it and return `true` only when it exists and its `userId`
matches the caller; otherwise return `false` without touching the store. -/
def deleteSavedText (texts : List SavedText) (id userId : String) :
    Bool × List SavedText :=
  match texts.find? (fun t => t.id = id) with
  | some t =>
    if t.userId = userId then (true, texts.eraseP (fun u => u.id = id))
    else (false, texts)
  | none => (false, texts)

/-- The read-side ownership check of the route layer
(`src/unnamed/part_001` lines 644-651): after `storage.getSavedText(id)`,
respond 404 "Saved text not found" unless the row exists and its `userId`
equals the session's user id.  `none` models the 404 response. -/
def getSavedTextRoute (texts : List SavedText) (id userId : String) :
    Option SavedText :=
  match getSavedText texts id with
  | some t => if t.userId = userId then some t else none
  | none => none

/-- Outcome of the signup handler, as seen by the caller. -/
inductive SignupResult where
  | usernameTaken
  | emailTaken
  | created (u : User)
  deriving Repr, DecidableEq

/-- The signup handler (`src/unnamed/part_001` lines 472-511), after zod
validation: reject 409 when the username already exists, reject 409 when
the email already exists, otherwise `createUser` and return the new row. -/
def signup (hash : String → String) (users : List User)
    (username email password id : String) (now : Nat) :
    SignupResult × List User :=
  match getUserByUsername users username with
  | some _ => (.usernameTaken, users)
  | none =>
    match getUserByEmail users email with
    | some _ => (.emailTaken, users)
    | none =>
      let r := createUser hash users ⟨username, password, some email⟩ id now
      (.created r.1, r.2)

/-- State of the `SupabaseStorage` backend (`src/unnamed/part_005`): the two
database tables it queries, plus the `translations` field — a plain
JavaScript `Map` living in the process (`private translations: Map<...>`,
lines 9-14). -/
structure SupabaseState where
  dbUsers : List User
  dbSavedTexts : List SavedText
  memTranslations : List Translation
  deriving Repr, DecidableEq

/-- Embeds `SupabaseStorage.createTranslation` (`part_005` lines 46-55): builds the
artifact and stores it with `this.translations.set(id, translation)` — no
database statement is issued. -/
def supabaseCreateTranslation (st : SupabaseState) (ins : InsertTranslation)
    (id : String) (now : Nat) : Translation × SupabaseState :=
  let r := createTranslation st.memTranslations ins id now
  (r.1, { st with memTranslations := r.2 })

/-- Embeds `SupabaseStorage.getTranslation` (`part_005` lines 57-59):
`this.translations.get(id)`. -/
def supabaseGetTranslation (st : SupabaseState) (id : String) :
    Option Translation :=
  getTranslation st.memTranslations id

/-- Embeds `SupabaseStorage.createSavedText` (`part_005` lines 68-71): an `INSERT`
into the `mvp_saved_texts` table. -/
def supabaseCreateSavedText (st : SupabaseState) (ins : InsertSavedText)
    (id : String) (now : Nat) : SavedText × SupabaseState :=
  let r := createSavedText st.dbSavedTexts ins id now
  (r.1, { st with dbSavedTexts := r.2 })

/-- The JavaScript guard `!originalText || originalText.trim() === ""`:
the transcript is empty or consists of whitespace only. -/
def trimmedEmpty (s : String) : Bool :=
  s.toList.all fun c => c.isWhitespace

/-- Response of the `/api/polish-speech` handler. -/
inductive HandlerResult where
  | clientError (msg : String)
  | serverError (msg : String)
  | okArtifact (t : Translation)
  deriving Repr, DecidableEq

/-- The `/api/polish-speech` handler (`src/server/routes.ts` lines 97-157):
transcribe; reject an empty or whitespace-only transcript with the 400
"Could not transcribe audio" validation error before the polish stage runs;
otherwise polish, persist, and return the artifact.  Any error escaping a
stage becomes a 500 response and nothing is persisted. -/
def polishSpeechHandler (translations : List Translation)
    (transcribeApi : Nat → AttemptResult (Option String))
    (polishApi : Nat → AttemptResult (Option ParseOutcome))
    (language outputFormat : String) (tid : String) (now : Nat) :
    HandlerResult × List Translation :=
  match (transcribeAudio transcribeApi).outcome with
  | .aborted m => (.serverError m, translations)
  | .exhausted m => (.serverError m, translations)
  | .success originalText =>
    if originalText = "" || trimmedEmpty originalText then
      (.clientError "Could not transcribe audio. Please try speaking more clearly.",
        translations)
    else
      match (polishText originalText polishApi).outcome with
      | .aborted m => (.serverError m, translations)
      | .exhausted m => (.serverError m, translations)
      | .success polishedText =>
        let r := createTranslation translations
          { originalText := originalText
            translatedText := originalText
            polishedText := polishedText
            sourceLanguage := language
            targetLanguage := language
            outputFormat := outputFormat } tid now
        (.okArtifact r.1, r.2)

/-- Modelled from the spec (§4.3): the fallback chain on missing or empty
fields — the first present, non-empty value wins, the final default closing
the chain. -/
def firstNonEmpty : List (Option String) → String → String
  | [], d => d
  | none :: rest, d => firstNonEmpty rest d
  | some s :: rest, d => if s = "" then firstNonEmpty rest d else s

/-- Modelled from the spec (§4.3, Translate mode): the fields a Translate
response must resolve to — on an unparseable body everything falls back to
the original text; otherwise `translatedText` falls back to the original
and `polishedText` walks `polishedText → translatedText → original`. -/
def specTranslateFields (raw : Option ParseOutcome) (text : String) : TransPair :=
  match respParse raw with
  | .failed _ => ⟨text, text⟩
  | .obj o =>
    ⟨firstNonEmpty [o.translatedText] text,
      firstNonEmpty [o.polishedText, o.translatedText] text⟩

/-- A response body counts as malformed for the Polish contract when it
fails to parse or lacks the declared `polishedText` field. -/
def malformedPolish (raw : Option ParseOutcome) : Bool :=
  match respParse raw with
  | .failed _ => true
  | .obj o => o.polishedText = none

/-! ## Helper lemmas -/

theorem retryTimeouts_gemini :
    retryTimeouts geminiRetryOptions = [2000, 4000, 8000, 16000, 30000] := by
  decide

theorem pRetryGo_eq_ok (op : Nat → Wrapped α) (a : Nat) (ts : List Nat)
    (errs : List String) (v : α) (h : op a = .ok v) :
    pRetryGo op a ts errs = ⟨.success v, [], a⟩ := by
  unfold pRetryGo
  rw [h]

theorem pRetryGo_eq_abort (op : Nat → Wrapped α) (a : Nat) (ts : List Nat)
    (errs : List String) (m : String) (h : op a = .abort m) :
    pRetryGo op a ts errs = ⟨.aborted m, [], a⟩ := by
  unfold pRetryGo
  rw [h]

theorem pRetryGo_eq_retriable_nil (op : Nat → Wrapped α) (a : Nat)
    (errs : List String) (m : String) (h : op a = .retriable m) :
    pRetryGo op a [] errs =
      ⟨.exhausted ((mainError (errs ++ [m])).getD m), [], a⟩ := by
  unfold pRetryGo
  rw [h]

theorem pRetryGo_eq_retriable_cons (op : Nat → Wrapped α) (a : Nat)
    (t : Nat) (rest : List Nat) (errs : List String) (m : String)
    (h : op a = .retriable m) :
    pRetryGo op a (t :: rest) errs =
      ⟨(pRetryGo op (a + 1) rest (errs ++ [m])).outcome,
        t :: (pRetryGo op (a + 1) rest (errs ++ [m])).delays,
        (pRetryGo op (a + 1) rest (errs ++ [m])).attempts⟩ := by
  conv_lhs => unfold pRetryGo
  rw [h]

theorem pRetryGo_attempts_le (op : Nat → Wrapped α) :
    ∀ (ts : List Nat) (a : Nat) (errs : List String),
      (pRetryGo op a ts errs).attempts ≤ a + ts.length := by
  intro ts
  induction ts with
  | nil =>
    intro a errs
    cases h : op a with
    | ok v => rw [pRetryGo_eq_ok op a [] errs v h]; simp
    | abort m => rw [pRetryGo_eq_abort op a [] errs m h]; simp
    | retriable m => rw [pRetryGo_eq_retriable_nil op a errs m h]; simp
  | cons t rest ih =>
    intro a errs
    cases h : op a with
    | ok v => rw [pRetryGo_eq_ok op a (t :: rest) errs v h]; simp
    | abort m => rw [pRetryGo_eq_abort op a (t :: rest) errs m h]; simp
    | retriable m =>
      rw [pRetryGo_eq_retriable_cons op a t rest errs m h]
      have hr := ih (a + 1) (errs ++ [m])
      simp only [List.length_cons]
      omega

theorem pRetryGo_success_src (op : Nat → Wrapped α) :
    ∀ (ts : List Nat) (a : Nat) (errs : List String) (v : α),
      (pRetryGo op a ts errs).outcome = .success v → ∃ n, op n = .ok v := by
  intro ts
  induction ts with
  | nil =>
    intro a errs v h
    cases ho : op a with
    | ok u =>
      rw [pRetryGo_eq_ok op a [] errs u ho] at h
      simp only [RunOutcome.success.injEq] at h
      exact ⟨a, by rw [ho, h]⟩
    | abort m => rw [pRetryGo_eq_abort op a [] errs m ho] at h; simp at h
    | retriable m => rw [pRetryGo_eq_retriable_nil op a errs m ho] at h; simp at h
  | cons t rest ih =>
    intro a errs v h
    cases ho : op a with
    | ok u =>
      rw [pRetryGo_eq_ok op a (t :: rest) errs u ho] at h
      simp only [RunOutcome.success.injEq] at h
      exact ⟨a, by rw [ho, h]⟩
    | abort m => rw [pRetryGo_eq_abort op a (t :: rest) errs m ho] at h; simp at h
    | retriable m =>
      rw [pRetryGo_eq_retriable_cons op a t rest errs m ho] at h
      exact ih (a + 1) (errs ++ [m]) v h

/-! ## Claim C1 — retry policy -/

/-- C1 (counterexample): a unit of work failing with a transient error on
every attempt is attempted 6 times, not at most 5, and a fifth backoff delay
of 30000 ms is waited — `retries: 5` budgets five retries after the first
attempt, contradicting "performs at most maxAttempts = 5 total attempts"
with delays drawn from 2000/4000/8000/16000. -/
theorem c1_retry_policy_counterexample :
    (pRetryRun geminiRetryOptions
        (fun _ => (Wrapped.retriable "quota" : Wrapped Nat))).attempts = 6 ∧
    (pRetryRun geminiRetryOptions
        (fun _ => (Wrapped.retriable "quota" : Wrapped Nat))).delays =
      [2000, 4000, 8000, 16000, 30000] := by
  decide

/-- C1 (amended): for every wrapped unit of work, the retry controller
returns at once on a success or a non-transient failure; retries only
transient failures, waiting 2000, 4000, 8000, 16000, 30000 ms between
consecutive attempts; transient failures on attempts 1-4 followed by success
on attempt 5 yield the success value after exactly 4 retries with delays
2000/4000/8000/16000 ms; when all 6 attempts (1 initial + 5 retries) fail
transiently it propagates the most frequently recorded transient error,
ties favoring the most recent; and it never makes more than 6 attempts. -/
theorem c1_retry_policy_amended :
    (∀ (α : Type) (w : Nat → Wrapped α) (v : α), w 1 = .ok v →
      pRetryRun geminiRetryOptions w = ⟨.success v, [], 1⟩) ∧
    (∀ (α : Type) (w : Nat → Wrapped α) (m : String), w 1 = .abort m →
      pRetryRun geminiRetryOptions w = ⟨.aborted m, [], 1⟩) ∧
    (∀ (α : Type) (w : Nat → Wrapped α) (e : Nat → String) (v : α),
      (∀ n, 1 ≤ n → n ≤ 4 → w n = .retriable (e n)) → w 5 = .ok v →
      pRetryRun geminiRetryOptions w =
        ⟨.success v, [2000, 4000, 8000, 16000], 5⟩) ∧
    (∀ (α : Type) (w : Nat → Wrapped α) (e : Nat → String),
      (∀ n, 1 ≤ n → n ≤ 6 → w n = .retriable (e n)) →
      pRetryRun geminiRetryOptions w =
        ⟨.exhausted ((mainError [e 1, e 2, e 3, e 4, e 5, e 6]).getD (e 6)),
          [2000, 4000, 8000, 16000, 30000], 6⟩) ∧
    (∀ (α : Type) (w : Nat → Wrapped α),
      (pRetryRun geminiRetryOptions w).attempts ≤ 6) := by
  refine ⟨?_, ?_, ?_, ?_, ?_⟩
  · intro α w v h
    rw [pRetryRun, pRetryGo_eq_ok w 1 _ [] v h]
  · intro α w m h
    rw [pRetryRun, pRetryGo_eq_abort w 1 _ [] m h]
  · intro α w e v h14 h5
    have h1 := h14 1 (by omega) (by omega)
    have h2 := h14 2 (by omega) (by omega)
    have h3 := h14 3 (by omega) (by omega)
    have h4 := h14 4 (by omega) (by omega)
    rw [pRetryRun, retryTimeouts_gemini,
      pRetryGo_eq_retriable_cons w 1 _ _ _ _ h1,
      pRetryGo_eq_retriable_cons w 2 _ _ _ _ h2,
      pRetryGo_eq_retriable_cons w 3 _ _ _ _ h3,
      pRetryGo_eq_retriable_cons w 4 _ _ _ _ h4,
      pRetryGo_eq_ok w 5 _ _ v h5]
  · intro α w e h16
    have h1 := h16 1 (by omega) (by omega)
    have h2 := h16 2 (by omega) (by omega)
    have h3 := h16 3 (by omega) (by omega)
    have h4 := h16 4 (by omega) (by omega)
    have h5 := h16 5 (by omega) (by omega)
    have h6 := h16 6 (by omega) (by omega)
    rw [pRetryRun, retryTimeouts_gemini,
      pRetryGo_eq_retriable_cons w 1 _ _ _ _ h1,
      pRetryGo_eq_retriable_cons w 2 _ _ _ _ h2,
      pRetryGo_eq_retriable_cons w 3 _ _ _ _ h3,
      pRetryGo_eq_retriable_cons w 4 _ _ _ _ h4,
      pRetryGo_eq_retriable_cons w 5 _ _ _ _ h5,
      pRetryGo_eq_retriable_nil w 6 _ _ h6]
    rfl
  · intro α w
    have := pRetryGo_attempts_le w (retryTimeouts geminiRetryOptions) 1 []
    rw [retryTimeouts_gemini] at this
    simpa [pRetryRun, retryTimeouts_gemini] using this

/-- C1 witness: four "quota" failures then success on attempt 5 resolve
with the success value after delays 2000/4000/8000/16000. -/
theorem c1_retry_policy_witness :
    pRetryRun geminiRetryOptions
        (fun n => if n ≤ 4 then (Wrapped.retriable "quota" : Wrapped Nat)
          else .ok 7) =
      ⟨.success 7, [2000, 4000, 8000, 16000], 5⟩ :=
  c1_retry_policy_amended.2.2.1 Nat _ (fun _ => "quota") 7
    (fun n h1 h4 => by
      simp only [if_pos (show n ≤ 4 from h4)])
    (by simp)

/-! ## Transform-stage lemmas -/

theorem jsOrStr_self (d : String) : jsOrStr (some d) d = d := by
  by_cases h : d = "" <;> simp [jsOrStr, h]

theorem jsOrStr_ne_empty (v : Option String) (d : String) (h : d ≠ "") :
    jsOrStr v d ≠ "" := by
  cases v with
  | none => simpa [jsOrStr] using h
  | some s =>
    by_cases hs : s = ""
    · simpa [jsOrStr, hs] using h
    · simp [jsOrStr, hs]

theorem jsOrStr_eq_first1 (v : Option String) (d : String) :
    jsOrStr v d = firstNonEmpty [v] d := by
  cases v <;> simp [jsOrStr, firstNonEmpty]

theorem jsOrStr_chain (p t : Option String) (d : String) :
    jsOrStr p (jsOrStr t d) = firstNonEmpty [p, t] d := by
  cases p with
  | none => cases t <;> simp [jsOrStr, firstNonEmpty]
  | some s =>
    by_cases hs : s = "" <;> cases t <;> simp [jsOrStr, firstNonEmpty, hs]

theorem classifyAttempt_ok_inv (r : AttemptResult α) (v : α)
    (h : classifyAttempt r = .ok v) : r = .ok v := by
  cases r with
  | ok u => simpa [classifyAttempt] using h
  | err m =>
    simp only [classifyAttempt] at h
    split at h <;> simp at h

theorem transcribeAudio_first_ok (api : Nat → AttemptResult (Option String))
    (t : Option String) (h : api 1 = .ok t) :
    transcribeAudio api = ⟨.success (t.getD ""), [], 1⟩ := by
  rw [transcribeAudio, retryWrapped, pRetryRun]
  exact pRetryGo_eq_ok _ 1 _ [] _ (by simp [h, classifyAttempt])

theorem polishTextAttempt_malformed (text : String)
    (api : Nat → AttemptResult (Option ParseOutcome)) (n : Nat)
    (raw : Option ParseOutcome) (h : api n = .ok raw)
    (hm : malformedPolish raw = true) :
    polishTextAttempt text api n = .ok text := by
  simp only [polishTextAttempt, h]
  cases hr : respParse raw with
  | failed e => simp [safeJsonParse, hr, jsOrStr_self]
  | obj o =>
    simp only [malformedPolish, hr, decide_eq_true_eq] at hm
    simp [safeJsonParse, hr, hm, jsOrStr]

/-! ## Claim C4 — graceful degradation of the Polish transform -/

/-- C4 (counterexample): the divergent `polishText` copy in
`src/server/storage.ts` uses plain `JSON.parse`, so a malformed
model-response body makes the stage throw: the run aborts with the parse
error instead of returning the original input text. -/
theorem c4_graceful_polish_counterexample :
    polishTextDivergent "hello"
        (fun _ => .ok (some (.failed "Unexpected token o in JSON at position 1"))) =
      ⟨.aborted "Unexpected token o in JSON at position 1", [], 1⟩ := by
  decide

/-- C4 (amended): the canonical Polish transform (`gemini.ts`, via
`safeJsonParse`) returns the original input text unchanged whenever the
response body fails JSON parsing or lacks the `polishedText` field, and its
attempt never throws on any returned model output; the divergent copy in
`storage.ts` instead propagates a JSON-parse failure as a fatal error. -/
theorem c4_graceful_polish_amended :
    (∀ (text : String) (api : Nat → AttemptResult (Option ParseOutcome))
      (raw : Option ParseOutcome), api 1 = .ok raw → malformedPolish raw = true →
      polishText text api = ⟨.success text, [], 1⟩) ∧
    (∀ (text : String) (api : Nat → AttemptResult (Option ParseOutcome))
      (n : Nat) (raw : Option ParseOutcome), api n = .ok raw →
      ∃ s, polishTextAttempt text api n = .ok s) := by
  constructor
  · intro text api raw h hm
    rw [polishText, retryWrapped, pRetryRun]
    exact pRetryGo_eq_ok _ 1 _ [] _
      (by rw [polishTextAttempt_malformed text api 1 raw h hm]; rfl)
  · intro text api n raw h
    exact ⟨jsOrStr (safeJsonParse (respParse raw) ⟨none, some text⟩).polishedText text,
      by simp [polishTextAttempt, h]⟩

/-- C4 witness: a response lacking `polishedText` makes the canonical
Polish transform return the input unchanged in one attempt. -/
theorem c4_graceful_polish_witness :
    polishText "hello" (fun _ => .ok (some (.obj ⟨some "x", none⟩))) =
      ⟨.success "hello", [], 1⟩ :=
  c4_graceful_polish_amended.1 "hello" _ (some (.obj ⟨some "x", none⟩))
    rfl (by decide)

/-! ## Claim C3 — empty transcripts are domain failures -/

/-- C3: an empty or whitespace-only transcript is not retried — any
returned transcript resolves the retry wrapper on attempt 1 with zero
delays, since only thrown transient errors retry — and the
`/api/polish-speech` handler rejects it with the 400 "Could not transcribe
audio" validation error before the polish stage or `createTranslation` run,
leaving the translation store unchanged. -/
theorem c3_empty_transcript_domain_failure :
    (∀ (api : Nat → AttemptResult (Option String)) (t : Option String),
      api 1 = .ok t → transcribeAudio api = ⟨.success (t.getD ""), [], 1⟩) ∧
    (∀ (translations : List Translation)
      (tapi : Nat → AttemptResult (Option String))
      (papi : Nat → AttemptResult (Option ParseOutcome))
      (language outputFormat tid : String) (now : Nat) (s : String),
      tapi 1 = .ok (some s) → trimmedEmpty s = true →
      polishSpeechHandler translations tapi papi language outputFormat tid now =
        (.clientError "Could not transcribe audio. Please try speaking more clearly.",
          translations)) := by
  constructor
  · exact transcribeAudio_first_ok
  · intro translations tapi papi language outputFormat tid now s h htrim
    have ht : transcribeAudio tapi = ⟨.success s, [], 1⟩ :=
      transcribeAudio_first_ok tapi (some s) h
    simp [polishSpeechHandler, ht, htrim]

/-- C3 witness: a whitespace-only transcript yields the 400 validation
response and no persisted artifact. -/
theorem c3_empty_transcript_domain_failure_witness :
    polishSpeechHandler [] (fun _ => .ok (some "  "))
        (fun _ => .ok (some (.obj ⟨none, some "x"⟩))) "en" "professional" "t1" 5 =
      (.clientError "Could not transcribe audio. Please try speaking more clearly.",
        []) :=
  c3_empty_transcript_domain_failure.2 [] _ _ "en" "professional" "t1" 5 "  "
    rfl (by decide)

/-! ## Claim C8 — Translate fallback chain -/

theorem translateAndPolishAttempt_spec (text src tgt : String)
    (api : Nat → AttemptResult (Option ParseOutcome)) (n : Nat)
    (raw : Option ParseOutcome) (hne : src ≠ tgt) (h : api n = .ok raw) :
    translateAndPolishAttempt text src tgt api n =
      .ok (specTranslateFields raw text) := by
  simp only [translateAndPolishAttempt, h, if_neg hne]
  cases hr : respParse raw with
  | failed e =>
    simp [specTranslateFields, safeJsonParse, hr, jsOrStr_self]
  | obj o =>
    simp only [specTranslateFields, safeJsonParse, hr]
    rw [jsOrStr_chain, jsOrStr_eq_first1]

/-- C8: Translate-mode attempts resolve their fields exactly by the
spec's fallback chain (`polishedText → translatedText → original text`,
skipping absent and empty values), and consequently no successful
Translate run with non-empty input ever returns an empty `polishedText`
or `translatedText`. -/
theorem c8_fallback_chain :
    (∀ (text src tgt : String) (api : Nat → AttemptResult (Option ParseOutcome))
      (n : Nat) (raw : Option ParseOutcome), src ≠ tgt → api n = .ok raw →
      translateAndPolishAttempt text src tgt api n =
        .ok (specTranslateFields raw text)) ∧
    (∀ (text src tgt : String) (api : Nat → AttemptResult (Option ParseOutcome))
      (p : TransPair), text ≠ "" →
      (translateAndPolish text src tgt api).outcome = .success p →
      p.polishedText ≠ "" ∧ p.translatedText ≠ "") := by
  constructor
  · intro text src tgt api n raw hne h
    exact translateAndPolishAttempt_spec text src tgt api n raw hne h
  · intro text src tgt api p htext hsucc
    rw [translateAndPolish, retryWrapped, pRetryRun] at hsucc
    obtain ⟨n, hn⟩ := pRetryGo_success_src _ _ 1 [] p hsucc
    have hatt : translateAndPolishAttempt text src tgt api n = .ok p :=
      classifyAttempt_ok_inv _ p hn
    cases hapi : api n with
    | err m => simp [translateAndPolishAttempt, hapi] at hatt
    | ok raw =>
      by_cases hst : src = tgt
      · simp only [translateAndPolishAttempt, hapi, if_pos hst,
          AttemptResult.ok.injEq] at hatt
        rw [← hatt]
        exact ⟨jsOrStr_ne_empty _ text htext, htext⟩
      · simp only [translateAndPolishAttempt, hapi, if_neg hst,
          AttemptResult.ok.injEq] at hatt
        rw [← hatt]
        exact ⟨jsOrStr_ne_empty _ _ (jsOrStr_ne_empty _ text htext),
          jsOrStr_ne_empty _ text htext⟩

/-- C8 witness: a response carrying an empty `translatedText` and no
`polishedText` still yields non-empty output fields for a non-empty
Spanish-to-English input. -/
theorem c8_fallback_chain_witness :
    (⟨"hola", "hola"⟩ : TransPair).polishedText ≠ "" ∧
    (⟨"hola", "hola"⟩ : TransPair).translatedText ≠ "" :=
  c8_fallback_chain.2 "hola" "es" "en"
    (fun _ => .ok (some (.obj ⟨some "", none⟩))) ⟨"hola", "hola"⟩
    (by decide) (by decide)

/-! ## Claim C9 — fatal errors abort immediately -/

/-- C9: a wrapped unit of work whose first attempt fails with a fatal
(non-rate-limit, non-quota) error aborts at once: one attempt, no backoff
delay, the error propagated through the non-retryable `AbortError` path. -/
theorem c9_fatal_aborts (α : Type) (api : Nat → AttemptResult α) (m : String)
    (h1 : api 1 = .err m) (h2 : isRateLimitError m = false) :
    retryWrapped api = ⟨.aborted m, [], 1⟩ := by
  rw [retryWrapped, pRetryRun]
  rw [pRetryGo_eq_abort _ 1 _ [] m]
  rw [h1]
  simp [classifyAttempt, h2]

/-- C9 witness: a 500-class error on attempt 1 aborts immediately with zero
retries. -/
theorem c9_fatal_aborts_witness :
    retryWrapped
        (fun _ => (AttemptResult.err "500 Internal Server Error" : AttemptResult Nat)) =
      ⟨.aborted "500 Internal Server Error", [], 1⟩ :=
  c9_fatal_aborts Nat _ "500 Internal Server Error" rfl (by decide)

/-! ## Storage lemmas -/

theorem eraseP_of_split (p : SavedText → Bool) :
    ∀ (pre : List SavedText) (t : SavedText) (post : List SavedText),
      (∀ u ∈ pre, p u = false) → p t = true →
      (pre ++ t :: post).eraseP p = pre ++ post := by
  intro pre
  induction pre with
  | nil =>
    intro t post hpre hp
    simp [List.eraseP_cons, hp]
  | cons a as ih =>
    intro t post hpre hp
    have ha := hpre a (by simp)
    simp [List.eraseP_cons, ha,
      ih t post (fun u hu => hpre u (by simp [hu])) hp]

/-! ## Claim C2 — ownership checks on saved texts -/

/-- C2 (counterexample): the storage-level `getSavedText` takes no caller
identity at all and returns the stored row as-is, so a caller other than
the owner ("alice") receives the row rather than `undefined`. -/
theorem c2_ownership_counterexample :
    getSavedText
        [⟨"t1", "alice", "polish", "o", "p", none, "en", none, "professional", none, 10⟩]
        "t1" =
      some ⟨"t1", "alice", "polish", "o", "p", none, "en", none, "professional", none, 10⟩ ∧
    (⟨"t1", "alice", "polish", "o", "p", none, "en", none, "professional", none, 10⟩ :
        SavedText).userId ≠ "bob" := by
  decide

/-- C2 (amended): `deleteSavedText` verifies ownership — a non-owning or
missing id returns `false` with every row unchanged, the owning caller gets
`true` and exactly that row removed; `getSavedText` itself performs no
ownership check, and the read-side check lives in the route layer, whose
non-owning response is the same 404 "not found" as for a missing row. -/
theorem c2_ownership_amended :
    (∀ (texts : List SavedText) (id userId : String) (t : SavedText),
      getSavedText texts id = some t → t.userId ≠ userId →
      deleteSavedText texts id userId = (false, texts)) ∧
    (∀ (texts : List SavedText) (id userId : String),
      getSavedText texts id = none →
      deleteSavedText texts id userId = (false, texts)) ∧
    (∀ (texts : List SavedText) (id userId : String) (t : SavedText),
      getSavedText texts id = some t → t.userId = userId →
      ∃ pre post, texts = pre ++ t :: post ∧ (∀ u ∈ pre, u.id ≠ id) ∧
        deleteSavedText texts id userId = (true, pre ++ post)) ∧
    (∀ (texts : List SavedText) (id userId : String) (t : SavedText),
      getSavedText texts id = some t → t.userId ≠ userId →
      getSavedTextRoute texts id userId = none) ∧
    (∀ (texts : List SavedText) (id userId : String),
      getSavedText texts id = none →
      getSavedTextRoute texts id userId = none) ∧
    (∀ (texts : List SavedText) (id userId : String) (t : SavedText),
      getSavedText texts id = some t → t.userId = userId →
      getSavedTextRoute texts id userId = some t) := by
  refine ⟨?_, ?_, ?_, ?_, ?_, ?_⟩
  · intro texts id userId t h hne
    unfold getSavedText at h
    simp [deleteSavedText, h, hne]
  · intro texts id userId h
    unfold getSavedText at h
    simp [deleteSavedText, h]
  · intro texts id userId t h hown
    unfold getSavedText at h
    obtain ⟨hp, pre, post, hsplit, hpre⟩ := List.find?_eq_some.mp h
    refine ⟨pre, post, hsplit, ?_, ?_⟩
    · intro u hu
      have := hpre u hu
      simpa using this
    · simp only [deleteSavedText, h, if_pos hown]
      rw [hsplit, eraseP_of_split _ pre t post
        (fun u hu => by simpa using hpre u hu) hp]
  · intro texts id userId t h hne
    simp [getSavedTextRoute, h, hne]
  · intro texts id userId h
    simp [getSavedTextRoute, h]
  · intro texts id userId t h hown
    simp [getSavedTextRoute, h, hown]

/-- C2 witness: deleting "alice"'s row as "bob" fails and leaves the store
unchanged; deleting it as "alice" succeeds and removes exactly that row;
the route-level read as "bob" is the same "not found" as for a missing id. -/
theorem c2_ownership_witness :
    deleteSavedText
        [⟨"t1", "alice", "polish", "o", "p", none, "en", none, "professional", none, 10⟩]
        "t1" "bob" =
      (false,
        [⟨"t1", "alice", "polish", "o", "p", none, "en", none, "professional", none, 10⟩]) ∧
    getSavedTextRoute
        [⟨"t1", "alice", "polish", "o", "p", none, "en", none, "professional", none, 10⟩]
        "t1" "bob" = none ∧
    getSavedTextRoute
        [⟨"t1", "alice", "polish", "o", "p", none, "en", none, "professional", none, 10⟩]
        "missing" "bob" = none :=
  ⟨c2_ownership_amended.1
      [⟨"t1", "alice", "polish", "o", "p", none, "en", none, "professional", none, 10⟩]
      "t1" "bob"
      ⟨"t1", "alice", "polish", "o", "p", none, "en", none, "professional", none, 10⟩
      (by decide) (by decide),
    c2_ownership_amended.2.2.2.1
      [⟨"t1", "alice", "polish", "o", "p", none, "en", none, "professional", none, 10⟩]
      "t1" "bob"
      ⟨"t1", "alice", "polish", "o", "p", none, "en", none, "professional", none, 10⟩
      (by decide) (by decide),
    c2_ownership_amended.2.2.2.2.1
      [⟨"t1", "alice", "polish", "o", "p", none, "en", none, "professional", none, 10⟩]
      "missing" "bob" (by decide)⟩

/-! ## Claim C5 — username uniqueness -/

/-- C5 (counterexample): `createUser` itself performs no duplicate check —
calling it twice with the username "alice" writes a second row, leaving two
User rows sharing a username. -/
theorem c5_unique_username_counterexample :
    ((createUser (fun s => String.append "#" s)
        (createUser (fun s => String.append "#" s) []
          ⟨"alice", "pw1", none⟩ "id1" 0).2
        ⟨"alice", "pw2", none⟩ "id2" 1).2.map User.username) =
      ["alice", "alice"] := by
  decide

/-- C5 (amended): the duplicate-username rejection lives in the signup
handler, not in `createUser`: signup returns 409 before any row is written
when the username exists, and signup preserves the no-two-rows-share-a-
username invariant. -/
theorem c5_unique_username_amended :
    (∀ (hash : String → String) (users : List User)
      (username email password id : String) (now : Nat) (u : User),
      getUserByUsername users username = some u →
      signup hash users username email password id now = (.usernameTaken, users)) ∧
    (∀ (hash : String → String) (users : List User)
      (username email password id : String) (now : Nat),
      (users.map User.username).Nodup →
      (((signup hash users username email password id now).2).map User.username).Nodup) := by
  constructor
  · intro hash users username email password id now u h
    simp [signup, h]
  · intro hash users username email password id now hnd
    cases hu : getUserByUsername users username with
    | some u => simpa [signup, hu] using hnd
    | none =>
      have hu2 := hu
      unfold getUserByUsername at hu2
      have hnotin : ∀ v ∈ users, v.username ≠ username := by
        intro v hv
        have := List.find?_eq_none.mp hu2 v hv
        simpa using this
      cases he : getUserByEmail users email with
      | some u => simpa [signup, hu, he] using hnd
      | none =>
        simp only [signup, hu, he, createUser]
        rw [List.map_append, List.nodup_append]
        refine ⟨hnd, by simp, ?_⟩
        intro x hx
        simp only [List.mem_map] at hx
        obtain ⟨v, hv, hvx⟩ := hx
        simp only [List.map_cons, List.map_nil, List.mem_cons, List.not_mem_nil,
          or_false]
        intro he2
        exact hnotin v hv (by rw [← hvx] at he2; exact he2)

/-- C5 witness: signing up "alice" over a store already holding "bob"
keeps usernames pairwise distinct, and a second "alice" signup is rejected
with the store unchanged. -/
theorem c5_unique_username_witness :
    (((signup (fun s => String.append "#" s)
        [⟨"id0", "bob", none, "#pw", 0, 0⟩]
        "alice" "a@x.com" "pw123" "id9" 3).2).map User.username).Nodup ∧
    signup (fun s => String.append "#" s)
        [⟨"id0", "alice", none, "#pw", 0, 0⟩]
        "alice" "a@x.com" "pw123" "id9" 3 =
      (.usernameTaken, [⟨"id0", "alice", none, "#pw", 0, 0⟩]) :=
  ⟨c5_unique_username_amended.2 (fun s => String.append "#" s)
      [⟨"id0", "bob", none, "#pw", 0, 0⟩] "alice" "a@x.com" "pw123" "id9" 3
      (by decide),
    c5_unique_username_amended.1 (fun s => String.append "#" s)
      [⟨"id0", "alice", none, "#pw", 0, 0⟩] "alice" "a@x.com" "pw123" "id9" 3
      ⟨"id0", "alice", none, "#pw", 0, 0⟩ (by decide)⟩

/-! ## Claim C6 — passwords are hashed before storing -/

/-- C6 (counterexample): the divergent `createUser` copy in
`src/unnamed/part_003` stores the submitted password verbatim
(`{ ...insertUser, id }`): after one signup the store literally contains
the plaintext "hunter2". -/
theorem c6_password_hash_counterexample :
    ((createUserLegacy [] "bob" "hunter2" "id1").2.map UserLegacy.password) =
      ["hunter2"] := by
  decide

/-- C6 (amended): the canonical `createUser` (`storage.ts`, and the
`SupabaseStorage` copy) stores `bcrypt.hash(password, 10)` in
`passwordHash` — for any hash function that never returns its input, no
stored row carries the plaintext, and the hashed-rows invariant is
preserved; the divergent `part_003` copy stores the plaintext instead. -/
theorem c6_password_hash_amended (hash : String → String) (users : List User)
    (input : CreateUserInput) (id : String) (now : Nat)
    (hne : ∀ s, hash s ≠ s) :
    ((createUser hash users input id now).1.passwordHash = hash input.password) ∧
    ((createUser hash users input id now).1.passwordHash ≠ input.password) ∧
    ((createUser hash users input id now).2 =
      users ++ [(createUser hash users input id now).1]) ∧
    ((∀ u ∈ users, ∃ s, u.passwordHash = hash s) →
      ∀ u ∈ (createUser hash users input id now).2, ∃ s, u.passwordHash = hash s) := by
  refine ⟨rfl, hne input.password, rfl, ?_⟩
  intro hall u hu
  simp only [createUser, List.mem_append, List.mem_cons, List.not_mem_nil,
    or_false] at hu
  cases hu with
  | inl h => exact hall u h
  | inr h => exact ⟨input.password, by rw [h]⟩

/-- The hash used by the C6 witness: prepending "#" never returns its
input (the lengths differ). -/
def sharpHash (s : String) : String := "#" ++ s

theorem sharpHash_ne (s : String) : sharpHash s ≠ s := by
  intro h
  have hl := congrArg String.length h
  rw [sharpHash, String.length_append] at hl
  have h1 : "#".length = 1 := rfl
  omega

/-- C6 witness: a concrete signup stores the hash, not "hunter2". -/
theorem c6_password_hash_witness :
    (createUser sharpHash [] ⟨"bob", "hunter2", none⟩ "id1" 0).1.passwordHash ≠
      "hunter2" :=
  (c6_password_hash_amended sharpHash [] ⟨"bob", "hunter2", none⟩ "id1" 0
    sharpHash_ne).2.1

/-! ## Claim C7 — the "durable" backend's translation store -/

/-- C7 (counterexample): creating an Artifact through `SupabaseStorage`
leaves both database tables exactly as they were and records the artifact
only in the process-local `translations` map, from which `getTranslation`
serves it. -/
theorem c7_durable_backend_counterexample :
    ((supabaseCreateTranslation ⟨[], [], []⟩
        ⟨"o", "t", "p", "es", "en", "professional"⟩ "a1" 5).2.dbUsers = []) ∧
    ((supabaseCreateTranslation ⟨[], [], []⟩
        ⟨"o", "t", "p", "es", "en", "professional"⟩ "a1" 5).2.dbSavedTexts = []) ∧
    ((supabaseCreateTranslation ⟨[], [], []⟩
        ⟨"o", "t", "p", "es", "en", "professional"⟩ "a1" 5).2.memTranslations =
      [⟨"a1", "o", "t", "p", "es", "en", "professional", 5⟩]) ∧
    (supabaseGetTranslation
        (supabaseCreateTranslation ⟨[], [], []⟩
          ⟨"o", "t", "p", "es", "en", "professional"⟩ "a1" 5).2 "a1" =
      some ⟨"a1", "o", "t", "p", "es", "en", "professional", 5⟩) := by
  decide

/-- C7 (amended): in the relational backend the user and saved-text
operations touch only the database tables, but `createTranslation`,
`getTranslation` and `getRecentTranslations` live on the process-local
map: `createTranslation` leaves every table unchanged and appends to the
in-memory map, and `getTranslation` reads only that map. -/
theorem c7_durable_backend_amended (st : SupabaseState)
    (ins : InsertTranslation) (id : String) (now : Nat) :
    ((supabaseCreateTranslation st ins id now).2.dbUsers = st.dbUsers) ∧
    ((supabaseCreateTranslation st ins id now).2.dbSavedTexts = st.dbSavedTexts) ∧
    ((supabaseCreateTranslation st ins id now).2.memTranslations =
      st.memTranslations ++ [(supabaseCreateTranslation st ins id now).1]) ∧
    (supabaseGetTranslation st id = getTranslation st.memTranslations id) ∧
    (∀ (ins2 : InsertSavedText) (id2 : String) (now2 : Nat),
      ((supabaseCreateSavedText st ins2 id2 now2).2.memTranslations =
        st.memTranslations) ∧
      ((supabaseCreateSavedText st ins2 id2 now2).2.dbSavedTexts =
        st.dbSavedTexts ++ [(supabaseCreateSavedText st ins2 id2 now2).1])) := by
  refine ⟨rfl, rfl, rfl, rfl, ?_⟩
  intro ins2 id2 now2
  exact ⟨rfl, rfl⟩

/-! ## Claim C10 — saved-text queries are ownership-scoped -/

/-- C10 (counterexample): a supplied empty-string type filter is falsy in
JavaScript (`!type`), so it filters nothing: the query returns a row whose
`type` ("polish") does not equal the supplied filter (""). -/
theorem c10_saved_texts_query_counterexample :
    getSavedTextsByUser
        [⟨"t1", "u1", "polish", "o", "p", none, "en", none, "professional", none, 10⟩]
        "u1" (some "") =
      [⟨"t1", "u1", "polish", "o", "p", none, "en", none, "professional", none, 10⟩] ∧
    (⟨"t1", "u1", "polish", "o", "p", none, "en", none, "professional", none, 10⟩ :
        SavedText).type ≠ "" := by
  decide

/-- C10 (amended): `getSavedTextsByUser` (both backends agree) returns
exactly the rows owned by the given user — never a row of another user —
filtered by the type when a non-empty filter is supplied (an absent or
empty-string filter matches every type), sorted by `createdAt`
descending. -/
theorem c10_saved_texts_query_amended :
    ∀ (texts : List SavedText) (userId : String) (type : Option String),
      (∀ t ∈ getSavedTextsByUser texts userId type, t.userId = userId) ∧
      (∀ ty, type = some ty → ty ≠ "" →
        ∀ t ∈ getSavedTextsByUser texts userId type, t.type = ty) ∧
      ((type = none ∨ type = some "") →
        (getSavedTextsByUser texts userId type).Perm
          (texts.filter fun t => t.userId = userId)) ∧
      (∀ ty, type = some ty → ty ≠ "" →
        (getSavedTextsByUser texts userId type).Perm
          (texts.filter fun t => t.userId = userId ∧ t.type = ty)) ∧
      ((getSavedTextsByUser texts userId type).Pairwise savedDesc) ∧
      (supabaseGetSavedTextsByUser texts userId type =
        getSavedTextsByUser texts userId type) := by
  intro texts userId type
  have hperm : (getSavedTextsByUser texts userId type).Perm
      (texts.filter (savedMatches userId type)) :=
    List.perm_insertionSort _ _
  refine ⟨?_, ?_, ?_, ?_, ?_, rfl⟩
  · intro t ht
    have hm := (List.mem_filter.mp (hperm.mem_iff.mp ht)).2
    simp only [savedMatches, Bool.and_eq_true, decide_eq_true_eq] at hm
    exact hm.1
  · intro ty hty htyne t ht
    have hm := (List.mem_filter.mp (hperm.mem_iff.mp ht)).2
    rw [hty] at hm
    simp only [savedMatches, Bool.and_eq_true, decide_eq_true_eq,
      if_neg htyne] at hm
    exact hm.2
  · intro hcase
    refine hperm.trans (List.Perm.of_eq (List.filter_congr ?_))
    intro a _
    cases hcase with
    | inl h => simp [savedMatches, h]
    | inr h => simp [savedMatches, h]
  · intro ty hty htyne
    refine hperm.trans (List.Perm.of_eq (List.filter_congr ?_))
    intro a _
    simp [savedMatches, hty, if_neg htyne, Bool.decide_and]
  · exact List.sorted_insertionSort savedDesc _

/-- C10 witness: over a two-row store, the query returns only rows owned
by "u1", and a "translate" filter returns a row of that type. -/
theorem c10_saved_texts_query_witness :
    (⟨"t2", "u1", "translate", "o", "p", none, "es", some "en", "professional",
        none, 20⟩ : SavedText).userId = "u1" ∧
    (⟨"t2", "u1", "translate", "o", "p", none, "es", some "en", "professional",
        none, 20⟩ : SavedText).type = "translate" :=
  ⟨(c10_saved_texts_query_amended
      [⟨"t1", "u1", "polish", "o", "p", none, "en", none, "professional", none, 10⟩,
        ⟨"t2", "u1", "translate", "o", "p", none, "es", some "en", "professional", none, 20⟩]
      "u1" none).1
      ⟨"t2", "u1", "translate", "o", "p", none, "es", some "en", "professional", none, 20⟩
      (by decide),
    (c10_saved_texts_query_amended
      [⟨"t1", "u1", "polish", "o", "p", none, "en", none, "professional", none, 10⟩,
        ⟨"t2", "u1", "translate", "o", "p", none, "es", some "en", "professional", none, 20⟩]
      "u1" (some "translate")).2.1 "translate" rfl (by decide)
      ⟨"t2", "u1", "translate", "o", "p", none, "es", some "en", "professional", none, 20⟩
      (by decide)⟩

end MyVoicePost
